import Mathlib

/-!
Verification of the interactive command layer in packages/cli/src.ts/cli.ts:
the token-level argument parser, the account-resolution classifier, the
consent-gated wrapped signer, and the per-invocation options pipeline.

Each definition is a shallow embedding of the correspondingly named function
of the source file.  Collaborator capabilities that the source imports from
outside the repository (password prompts, choice prompts, wallet decryption,
hex and mnemonic validation, decimal unit parsing, network providers) are
modelled from the specification text and are marked as such in their doc
comments.  Asynchronous functions become explicit state passing; awaited
failures become the error side of an Except value.
-/

namespace EthersCli

deriving instance DecidableEq for Except

/-- Returns true when an Except value carries a success result. -/
def exceptOk {ε α : Type} : Except ε α → Bool
  | .ok _ => true
  | .error _ => false

/-- Turns an optional value into an Except, failing with the given message. -/
def ofOption {α : Type} : Option α → String → Except String α
  | some a, _ => .ok a
  | none, msg => .error msg

/-! ## Argument parser (source lines 228-323)

A parser holds the raw token list and a parallel consumption list.  The
source mutates the consumption array in place; here each operation returns
the updated parser.  A usage error thrown by the source becomes the error
side of the Except result. -/

/-- Token stream with its parallel consumption state, as built by the
ArgParser constructor (source lines 232-235). -/
structure ArgParser where
  args : List String
  consumed : List Bool
deriving DecidableEq

/-- Fresh parser over a token list: nothing is consumed yet. -/
def ArgParser.ofArgs (args : List String) : ArgParser :=
  ⟨args, args.map (fun _ => false)⟩

/-- Duplicate-flag usage error thrown at source line 281.  The source uses a
plain double-quoted string, not a template literal, so the text between the
dollar-brace markers is never interpolated. -/
def consumeFlagDupMessage : String := "expected at most one --$\x7bname\x7d"

/-- Missing-value usage error thrown at source line 301.  Also a plain
double-quoted string in the source, never interpolated. -/
def missingArgumentMessage : String := "missing argument for --$\x7bname\x7d"

/-- Loop body of consumeFlag (source lines 270-278): walk every token up to a
literal "--" separator, counting tokens equal to "--name" and marking each of
them consumed.  The consumption state is written at the absolute index but is
never read, exactly as in the source. -/
def consumeFlagLoop (name : String) : List String → Nat → List Bool → Nat × List Bool
  | [], _, consumed => (0, consumed)
  | arg :: rest, i, consumed =>
    if arg = "--" then (0, consumed)
    else if arg = "--" ++ name then
      let r := consumeFlagLoop name rest (i + 1) (consumed.set i true)
      (r.1 + 1, r.2)
    else
      consumeFlagLoop name rest (i + 1) consumed

/-- consumeFlag (source lines 269-285): count the hits of the flag, fail with
a usage error on more than one hit, and report whether exactly one was seen. -/
def ArgParser.consumeFlag (p : ArgParser) (name : String) : Except String (Bool × ArgParser) :=
  let r := consumeFlagLoop name p.args 0 p.consumed
  if 1 < r.1 then .error consumeFlagDupMessage
  else .ok (r.1 == 1, ⟨p.args, r.2⟩)

/-- Loop of consumeMultiOptions (source lines 292-307).  argsLen is the length
of the full token list (the source compares the running index against
this._args.length).  The value token is read at index i+1 of the original
list, which is the head of rest; when the option token is the last token the
source reads past the end of the array, which is modelled by an Option-valued
token (none stands for the JavaScript undefined).  The guard argsLen = i is
the literal source condition at line 300. -/
def consumeMultiLoop (names : List String) (argsLen : Nat) :
    List String → Nat → List Bool → Except String (List (String × Option String) × List Bool)
  | [], _, consumed => .ok ([], consumed)
  | arg :: rest, i, consumed =>
    if arg = "--" then .ok ([], consumed)
    else if arg.take 2 = "--" then
      let nm := arg.drop 2
      if names.contains nm then
        if argsLen = i then .error missingArgumentMessage
        else
          let consumed1 := (consumed.set i true).set (i + 1) true
          match rest with
          | [] => .ok ([(nm, none)], consumed1)
          | v :: rest2 =>
            match consumeMultiLoop names argsLen rest2 (i + 2) consumed1 with
            | .ok (out, c2) => .ok ((nm, some v) :: out, c2)
            | .error e => .error e
      else
        consumeMultiLoop names argsLen rest (i + 1) consumed
    else
      consumeMultiLoop names argsLen rest (i + 1) consumed

/-- consumeMultiOptions (source lines 287-310): collect name-value pairs for
every token whose double-dash suffix is one of the requested names. -/
def ArgParser.consumeMultiOptions (p : ArgParser) (names : List String) :
    Except String (List (String × Option String) × ArgParser) :=
  match consumeMultiLoop names p.args.length p.args 0 p.consumed with
  | .ok (out, c) => .ok (out, ⟨p.args, c⟩)
  | .error e => .error e

/-- consumeOptions (source lines 312-314): the values of a single name. -/
def ArgParser.consumeOptions (p : ArgParser) (name : String) :
    Except String (List (Option String) × ArgParser) :=
  match p.consumeMultiOptions [name] with
  | .ok (out, p1) => .ok (out.map Prod.snd, p1)
  | .error e => .error e

/-- consumeOption (source lines 316-322): at most one value; zero matches
yield none rather than an error.  This error message IS a template literal in
the source (line 319) and therefore interpolates the name. -/
def ArgParser.consumeOption (p : ArgParser) (name : String) :
    Except String (Option (Option String) × ArgParser) :=
  match p.consumeOptions name with
  | .ok (out, p1) =>
    if 1 < out.length then .error ("expected at most one --" ++ name)
    else .ok (out.head?, p1)
  | .error e => .error e

/-! ## Signers and the account resolver (source lines 15-28, 87-221, 330-377) -/

/-- An abstract live signer.  The cryptographic capability itself is excluded
by the specification; only the identity of the produced signer matters here. -/
structure Signer where
  id : Nat
deriving DecidableEq

/-- Result of reading a credential file: the file contents, or the message of
the thrown error. -/
inductive FileReadResult where
  | contents (text : String)
  | failure (message : String)

/-- Collaborator capabilities used by loadAccount.  Modelled from the spec:
mnemonic validation ("passes a checksum/word-list validity check"), file
reading, and structural wallet recognition ("whose contents parse as an
encrypted wallet payload with a recoverable address field without
decryption") are all implemented outside this repository. -/
structure ResolverEnv where
  isValidMnemonic : String → Bool
  readFile : String → FileReadResult
  jsonWalletAddress : String → Option String

/-- Terminal usage error of loadAccount (source line 375). -/
def unknownAccountMessage : String := "unknown account option - [REDACTED]"

/-- Hexadecimal digit recognizer. -/
def isHexChar (c : Char) : Bool :=
  c.isDigit || ('a' ≤ c && c ≤ 'f') || ('A' ≤ c && c ≤ 'F')

/-- Modelled from the spec: the raw-secret recognizer, a "fixed-length hex
string (exactly the byte-length of a secret key, hex-encoded)" — a 0x prefix
followed by exactly 64 hex digits.  The source calls the library function
isHexString(arg, 32), which is outside this repository. -/
def isHexString32 (s : String) : Bool :=
  s.take 2 = "0x" && s.length = 66 && (s.drop 2).data.all isHexChar

/-- Outcome of one classification pass of loadAccount. -/
inductive LoadOutcome where
  | secureEntry
  | rawKey
  | mnemonicKey
  | jsonWallet (address : String) (contents : String) (path : String)
  | failed (message : String) (usage : Bool)
deriving DecidableEq

/-- Classification pass of loadAccount (source lines 330-377), branch for
branch in source order: the "-" sentinel, then the raw hex secret, then the
mnemonic, then the encrypted JSON wallet file, then the terminal usage error.
The catch block around the file branch maps a thrown "cancelled" to
"Cancelled." and a thrown "wrong password" to "Incorrect password.", and any
other caught error falls through to the terminal usage error.  Note that the
deferred factory built in the wallet branch is returned, not run, inside the
try block; its later failures never reach this catch. -/
def classifyAccount (env : ResolverEnv) (arg : String) : LoadOutcome :=
  if arg = "-" then .secureEntry
  else if isHexString32 arg then .rawKey
  else if env.isValidMnemonic arg then .mnemonicKey
  else
    match env.readFile arg with
    | .contents text =>
      match env.jsonWalletAddress text with
      | some address => .jsonWallet address text arg
      | none => .failed unknownAccountMessage true
    | .failure message =>
      if message = "cancelled" then .failed "Cancelled." false
      else if message = "wrong password" then .failed "Incorrect password." false
      else .failed unknownAccountMessage true

/-- Result of the deferred password prompt inside the wallet factory. -/
inductive PasswordPromptResult where
  | entered (password : String)
  | cancelled
deriving DecidableEq

/-- Environment of the deferred wallet factory: what the password prompt
returns, and which password decrypts the wallet. -/
structure WalletEnv where
  promptResult : PasswordPromptResult
  correctPassword : String
deriving DecidableEq

/-- Modelled from the spec: the deferred factory of the JSON-wallet branch
(source lines 357-364) prompts for a password and decrypts the wallet.  The
prompt capability fails with the message "cancelled" when aborted, and the
decryption capability (outside this repository) fails with the message
"wrong password" when the password is wrong; on success it yields the
decrypted live signer. -/
def walletFactory (wenv : WalletEnv) (decrypted : Signer) : Except String Signer :=
  match wenv.promptResult with
  | .cancelled => .error "cancelled"
  | .entered pw =>
    if pw = wenv.correctPassword then .ok decrypted
    else .error "wrong password"

/-! ## The wrapped signer (source lines 15-57, 87-221)

Per-wrapper state: the memoized signer (the signers WeakMap entry), the
always-allow consent memory (the alwaysAllow WeakMap entry), and a ghost
counter of factory invocations.  The environment fixes the auto-confirm
flag, the answer the choice prompt would give, and the factory result. -/

/-- The three-way consent choice returned by getChoice, plus the case where
reading the prompt itself fails (both the explicit "n" answer and a prompt
failure are turned into the error "Cancelled." by the source). -/
inductive ConsentChoice where
  | yesOnce
  | no
  | always
  | promptFailed
deriving DecidableEq

/-- Environment of the wrapped-signer operations. -/
structure OpEnv where
  autoYes : Bool
  choice : ConsentChoice
  factory : Except String Signer
deriving DecidableEq

/-- Per-wrapper mutable state, with a ghost count of factory invocations. -/
structure WrapperState where
  memo : Option Signer
  alwaysAllow : List String
  factoryCalls : Nat
deriving DecidableEq

/-- State of a freshly constructed WrappedSigner. -/
def initialWrapperState : WrapperState := ⟨none, [], 0⟩

/-- getSigner (source lines 21-28): return the memoized signer if present,
otherwise invoke the factory and memoize the result.  Nothing is memoized
when the factory fails, but the invocation still happened, so the ghost
counter is incremented first. -/
def getSigner (env : OpEnv) (st : WrapperState) : Except String Signer × WrapperState :=
  match st.memo with
  | some s => (.ok s, st)
  | none =>
    let st1 := { st with factoryCalls := st.factoryCalls + 1 }
    match env.factory with
    | .error e => (.error e, st1)
    | .ok s => (.ok s, { st1 with memo := some s })

/-- Note printed when the auto-confirm flag grants consent (source line 34). -/
def autoYesNote (message : String) : String := message ++ " (--yes => \"y\")"

/-- Note printed when a prior always-allow grants consent (source line 40). -/
def priorAlwaysNote (message : String) : String := message ++ " (previous (a)ll => \"y\")"

/-- Result of one consent request: the verdict, the updated state, whether an
interactive prompt was shown, and the note printed when the prompt was
skipped. -/
structure ConsentResult where
  verdict : Except String Unit
  st : WrapperState
  prompted : Bool
  note : Option String
deriving DecidableEq

/-- isAllowed (source lines 32-57): auto-confirm first, then the per-wrapper
always-allow memory, then the interactive three-way prompt.  Answering "a"
records the message; answering "n" or failing to read the prompt raises
"Cancelled.". -/
def isAllowed (env : OpEnv) (message : String) (st : WrapperState) : ConsentResult :=
  if env.autoYes then ⟨.ok (), st, false, some (autoYesNote message)⟩
  else if st.alwaysAllow.contains message then ⟨.ok (), st, false, some (priorAlwaysNote message)⟩
  else
    match env.choice with
    | .always => ⟨.ok (), { st with alwaysAllow := message :: st.alwaysAllow }, true, none⟩
    | .no => ⟨.error "Cancelled.", st, true, none⟩
    | .yesOnce => ⟨.ok (), st, true, none⟩
    | .promptFailed => ⟨.error "Cancelled.", st, true, none⟩

/-- The three consent-gated operations of WrappedSigner. -/
inductive GatedOp where
  | signMessage
  | signTransaction
  | sendTransaction
deriving DecidableEq

/-- The consent prompt message of each gated operation (source lines 133,
170, 208). -/
def consentMessage : GatedOp → String
  | .signMessage => "Sign Message?"
  | .signTransaction => "Sign Transaction?"
  | .sendTransaction => "Send Transaction?"

/-- Observable outcome of one gated operation: the propagated result, the
final wrapper state, whether a consent prompt was shown, and how many times
the underlying cryptographic sign/send capability was called. -/
structure OpResult where
  outcome : Except String Unit
  st : WrapperState
  prompted : Bool
  signerOpCalls : Nat
deriving DecidableEq

/-- Shared skeleton of signMessage, signTransaction and sendTransaction
(source lines 109-217).  Each method first awaits getSigner, then builds and
prints the summary, then awaits isAllowed, and only on consent calls the
underlying capability of the materialized signer.  The summary printing has
no observable effect on the state and is omitted. -/
def runGatedOp (env : OpEnv) (op : GatedOp) (st : WrapperState) : OpResult :=
  match getSigner env st with
  | (.error e, st1) => ⟨.error e, st1, false, 0⟩
  | (.ok _, st1) =>
    let c := isAllowed env (consentMessage op) st1
    match c.verdict with
    | .error e => ⟨.error e, c.st, c.prompted, 0⟩
    | .ok _ => ⟨.ok (), c.st, c.prompted, 1⟩

/-- unlock (source lines 219-221): force materialization without a
cryptographic action. -/
def unlock (env : OpEnv) (st : WrapperState) : Except String Unit × WrapperState :=
  match getSigner env st with
  | (.error e, st1) => (.error e, st1)
  | (.ok _, st1) => (.ok (), st1)

/-- Any operation on one wrapped identity. -/
inductive IdentityOp where
  | gated (op : GatedOp)
  | unlockOp
deriving DecidableEq

/-- Runs one operation for its state effect. -/
def runIdentityOp (env : OpEnv) (st : WrapperState) : IdentityOp → WrapperState
  | .gated op => (runGatedOp env op st).st
  | .unlockOp => (unlock env st).2

/-- Runs a sequence of operations on the same wrapped identity, each one
completing before the next begins. -/
def runOps (env : OpEnv) : List IdentityOp → WrapperState → WrapperState
  | [], st => st
  | op :: rest, st => runOps env rest (runIdentityOp env st op)

/-! ## Interleaved getSigner calls

The body of getSigner suspends at the await of the factory between the
memoization check and the memoization write.  A caller is therefore a tiny
coroutine: ready (about to run the check), awaiting the factory result, or
done.  Two callers sharing one wrapper are interleaved by a schedule. -/

/-- Progress of one in-flight getSigner call. -/
inductive CallPhase where
  | ready
  | awaitingFactory (r : Except String Signer)
  | done (r : Except String Signer)
deriving DecidableEq

/-- One of two concurrent callers. -/
inductive CallerId where
  | A
  | B
deriving DecidableEq

/-- Shared wrapper state plus the progress of two getSigner calls. -/
structure ConcurrentState where
  memo : Option Signer
  factoryCalls : Nat
  callA : CallPhase
  callB : CallPhase
deriving DecidableEq

/-- Both calls are about to start on a fresh wrapper. -/
def initialConcurrentState : ConcurrentState := ⟨none, 0, .ready, .ready⟩

/-- One scheduler step of the chosen caller: a ready caller runs the
memoization check of source line 22 and, when nothing is memoized, invokes
the factory and suspends at the await of source line 24; a suspended caller
resumes and performs the memoization write of source line 25. -/
def stepGetSigner (factory : Except String Signer) (st : ConcurrentState) (c : CallerId) :
    ConcurrentState :=
  let phase := match c with | .A => st.callA | .B => st.callB
  let next : CallPhase × Option Signer × Nat :=
    match phase with
    | .ready =>
      match st.memo with
      | some s => (.done (.ok s), st.memo, st.factoryCalls)
      | none => (.awaitingFactory factory, st.memo, st.factoryCalls + 1)
    | .awaitingFactory r =>
      match r with
      | .ok s => (.done (.ok s), some s, st.factoryCalls)
      | .error e => (.done (.error e), st.memo, st.factoryCalls)
    | .done r => (.done r, st.memo, st.factoryCalls)
  match c with
  | .A => { callA := next.1, callB := st.callB, memo := next.2.1, factoryCalls := next.2.2 }
  | .B => { callA := st.callA, callB := next.1, memo := next.2.1, factoryCalls := next.2.2 }

/-- Runs a schedule of caller steps. -/
def runSchedule (factory : Except String Signer) : List CallerId → ConcurrentState → ConcurrentState
  | [], st => st
  | c :: rest, st => runSchedule factory rest (stepGetSigner factory st c)

/-! ## The options pipeline (source lines 394-552) -/

/-- A resolved network identity. -/
structure Network where
  chainId : Nat
  name : String
deriving DecidableEq

/-- The sentinel recorded when the network lookup fails (source lines
541-544). -/
def noNetwork : Network := ⟨0, "no-network"⟩

/-- The network runner of prepareOptions (source lines 538-545): the
rejection handler replaces a failed lookup by the sentinel, so the runner
itself never fails. -/
def resolveNetworkIdentity : Except String Network → Network
  | .ok n => n
  | .error _ => noNetwork

/-- Collaborator results consumed by prepareOptions.  The account resolver is
invoked once per account credential; the JSON-RPC signer construction of the
account-rpc branch can throw; the provider network lookup can fail. -/
structure PipelineEnv where
  networkResult : Except String Network
  accountResult : Option String → Except String Unit
  rpcAccountValid : Option String → Bool

/-- Splits a character list at every dot, keeping empty components. -/
def splitOnDot : List Char → List (List Char)
  | [] => [[]]
  | c :: rest =>
    let r := splitOnDot rest
    if c = '.' then [] :: r
    else
      match r with
      | [] => [[c]]
      | h :: t => (c :: h) :: t

/-- Value of a list of decimal digit characters. -/
def decDigitsToNat (l : List Char) : Nat :=
  l.foldl (fun n c => n * 10 + (c.toNat - 48)) 0

/-- A nonempty all-digit character list parsed as a natural number. -/
def decToNat (l : List Char) : Option Nat :=
  if !l.isEmpty && l.all Char.isDigit then some (decDigitsToNat l) else none

/-- Modelled from the spec: parseUnits converts a decimal string denominated
in a display unit with the given number of fractional digits into integer
base units (the spec phrase: interpreted in the conventional display unit of
the chain and converted to base units).  The library implementation is
outside this repository. -/
def parseUnits (s : String) (decimals : Nat) : Option Nat :=
  match splitOnDot s.data with
  | [whole] => (decToNat whole).map (fun w => w * 10 ^ decimals)
  | [whole, frac] =>
    if frac.length ≤ decimals then
      match decToNat whole, decToNat frac with
      | some w, some f => some (w * 10 ^ decimals + f * 10 ^ (decimals - frac.length))
      | _, _ => none
    else none
  | _ => none

/-- Modelled from the spec: parseEther is parseUnits at the 18-decimal major
unit of the chain. -/
def parseEther (s : String) : Option Nat := parseUnits s 18

/-- Modelled from the spec: hexlify of the data option yields "a canonical
hex encoding" and fails on anything else; a 0x-prefixed even-length hex
string is returned unchanged. -/
def hexlifyModel (s : String) : Option String :=
  if s.take 2 = "0x" && (s.drop 2).data.all isHexChar && s.length % 2 = 0 then some s
  else none

/-- JavaScript truthiness of an option lookup result: the outer none is an
absent option, an inner none is the undefined value read past the end of the
token list, and the empty string is falsy. -/
def truthyOption : Option (Option String) → Option String
  | some (some s) => if s = "" then none else some s
  | _ => none

/-- Everything prepareOptions computes synchronously, before the network
runner fills in the network field.  Provider construction is abstracted to
the count of configured sources, since transport is excluded by the
specification. -/
structure CoreOptions where
  yes : Bool
  networkName : String
  rpcCount : Nat
  providerCount : Nat
  accountCount : Nat
  gasPrice : Option Nat
  gasLimit : Option Nat
  nonce : Option Nat
  value : Option Nat
  data : Option String
deriving DecidableEq

/-- The fully assembled execution context. -/
structure PluginOptions extends CoreOptions where
  network : Network
deriving DecidableEq

/-- The account loop of prepareOptions (source lines 466-502): resolve each
consumed account option in order.  An account credential goes through the
account resolver; an account-rpc reference requires exactly one configured
JSON-RPC provider and a well-formed index or address; an account-void
reference starts an asynchronous name resolution that cannot fail inside the
loop.  The result counts the wrapped identities pushed. -/
def accountLoop (loadAcct : Option String → Except String Unit)
    (rpcValid : Option String → Bool) (rpcCount : Nat) :
    List (String × Option String) → Except String Nat
  | [] => .ok 0
  | (nm, value) :: rest =>
    if nm = "account" then
      match loadAcct value with
      | .error e => .error e
      | .ok _ =>
        match accountLoop loadAcct rpcValid rpcCount rest with
        | .ok n => .ok (n + 1)
        | .error e => .error e
    else if nm = "account-rpc" then
      if rpcCount ≠ 1 then .error "--account-rpc requires exactly one JSON-RPC provider"
      else if rpcValid value then
        match accountLoop loadAcct rpcValid rpcCount rest with
        | .ok n => .ok (n + 1)
        | .error e => .error e
      else .error ("invalid --account-rpc - " ++ value.getD "undefined")
    else if nm = "account-void" then
      match accountLoop loadAcct rpcValid rpcCount rest with
      | .ok n => .ok (n + 1)
      | .error e => .error e
    else
      match accountLoop loadAcct rpcValid rpcCount rest with
      | .ok n => .ok n
      | .error e => .error e

/-- The synchronous part of prepareOptions (source lines 418-533), consuming
the recognized global options in source order: the auto-confirm flag, the
network name, the custom endpoints, the four hosted-provider flags, the
account options, and the transaction defaults.  Absent or falsy option
values leave their field unset, as the source truthiness checks do. -/
def prepareCore (env : PipelineEnv) (p0 : ArgParser) : Except String CoreOptions := do
  let (yes, p1) ← p0.consumeFlag "yes"
  let (networkOpt, p2) ← p1.consumeOption "network"
  let networkName := (truthyOption networkOpt).getD "homestead"
  let (rpcUrls, p3) ← p2.consumeOptions "rpc"
  let (alchemy, p4) ← p3.consumeFlag "alchemy"
  let (etherscan, p5) ← p4.consumeFlag "etherscan"
  let (infura, p6) ← p5.consumeFlag "infura"
  let (nodesmith, p7) ← p6.consumeFlag "nodesmith"
  let flagCount := [alchemy, etherscan, infura, nodesmith].count true
  let (accountOpts, p8) ← p7.consumeMultiOptions ["account", "account-rpc", "account-void"]
  let accountCount ← accountLoop env.accountResult env.rpcAccountValid rpcUrls.length accountOpts
  let (gasPriceOpt, p9) ← p8.consumeOption "gas-price"
  let gasPrice ← match truthyOption gasPriceOpt with
    | some s => (ofOption (parseUnits s 9) "invalid gas price").map some
    | none => pure none
  let (gasLimitOpt, p10) ← p9.consumeOption "gas-limit"
  let gasLimit ← match truthyOption gasLimitOpt with
    | some s => (ofOption (decToNat s.data) "invalid gas limit").map some
    | none => pure none
  let (nonceOpt, p11) ← p10.consumeOption "nonce"
  let nonce ← match truthyOption nonceOpt with
    | some s => (ofOption (decToNat s.data) "invalid nonce").map some
    | none => pure none
  let (valueOpt, p12) ← p11.consumeOption "value"
  let value ← match truthyOption valueOpt with
    | some s => (ofOption (parseEther s) "invalid value").map some
    | none => pure none
  let (dataOpt, _p13) ← p12.consumeOption "data"
  let dataHex ← match truthyOption dataOpt with
    | some s => (ofOption (hexlifyModel s) "invalid hexlify value").map some
    | none => pure none
  pure { yes := yes, networkName := networkName, rpcCount := rpcUrls.length,
         providerCount := rpcUrls.length + flagCount, accountCount := accountCount,
         gasPrice := gasPrice, gasLimit := gasLimit, nonce := nonce,
         value := value, data := dataHex }

/-- prepareOptions (source lines 418-552): the synchronous consumption
followed by the network runner, whose failure is degraded to the sentinel
instead of failing the pipeline. -/
def Plugin.prepareOptions (env : PipelineEnv) (p : ArgParser) : Except String PluginOptions :=
  (prepareCore env p).map
    (fun c => { toCoreOptions := c, network := resolveNetworkIdentity env.networkResult })

/-! ## Concrete environments used by the closed theorems below -/

/-- A user who declines every consent prompt, over a factory that succeeds. -/
def c1DemoEnv : OpEnv := ⟨false, .no, .ok ⟨7⟩⟩

/-- A user who approves each prompt once, over a factory that succeeds. -/
def c2DemoEnv : OpEnv := ⟨false, .yesOnce, .ok ⟨7⟩⟩

/-- A file system holding one well-formed encrypted wallet file. -/
def demoResolverEnv : ResolverEnv :=
  ⟨fun _ => false,
   fun p => if p = "wallet.json" then .contents "ENC" else .failure "ENOENT",
   fun t => if t = "ENC" then some "0xAbc" else none⟩

/-- A mnemonic validator that accepts every string, to exhibit a credential
that matches both the hex branch and the mnemonic branch. -/
def mnemonicAlwaysEnv : ResolverEnv :=
  ⟨fun _ => true, fun _ => .failure "ENOENT", fun _ => none⟩

/-- A 32-byte hex secret. -/
def demoHexKey : String :=
  "0x0000000000000000000000000000000000000000000000000000000000000000"

/-- A pipeline whose collaborators all succeed. -/
def c9Env : PipelineEnv := ⟨.ok ⟨1, "homestead"⟩, fun _ => .ok (), fun _ => true⟩

/-- A pipeline whose network lookup and account resolution both fail. -/
def c8DemoEnv : PipelineEnv :=
  ⟨.error "getaddrinfo ENOTFOUND", fun _ => .error "boom", fun _ => true⟩

/-! ## Helper lemmas -/

/-- The hit count of the consumeFlag loop depends only on the token list,
never on the position counter or the consumption state: the loop reads
tokens and writes consumption marks without ever reading them back. -/
theorem consumeFlagLoop_count_const (name : String) :
    ∀ (args : List String) (i j : Nat) (c1 c2 : List Bool),
      (consumeFlagLoop name args i c1).1 = (consumeFlagLoop name args j c2).1 := by
  intro args
  induction args with
  | nil => intro i j c1 c2; rfl
  | cons a rest ih =>
    intro i j c1 c2
    unfold consumeFlagLoop
    by_cases h1 : a = "--"
    · simp [if_pos h1]
    · by_cases h2 : a = "--" ++ name
      · simp only [if_neg h1, if_pos h2]
        have h := ih (i + 1) (j + 1) (c1.set i true) (c2.set j true)
        simp [h]
      · simp only [if_neg h1, if_neg h2]
        exact ih (i + 1) (j + 1) c1 c2

/-- The observable result of consumeFlag (hit or usage error) is the same for
any two consumption states over the same token list. -/
theorem consumeFlag_fst_const (args : List String) (c1 c2 : List Bool) (name : String) :
    Except.map Prod.fst (ArgParser.consumeFlag ⟨args, c1⟩ name)
      = Except.map Prod.fst (ArgParser.consumeFlag ⟨args, c2⟩ name) := by
  unfold ArgParser.consumeFlag
  simp only [consumeFlagLoop_count_const name args 0 0 c1 c2]
  split
  · rfl
  · rfl

set_option maxHeartbeats 1600000 in
/-- The consumeMultiOptions loop can never raise its missing-argument error:
the guard compares the total token count with the current index, but the
loop body only runs while the index is strictly below the total count. -/
theorem consumeMultiLoop_never_errs (names : List String) (argsLen : Nat) :
    ∀ (n : Nat) (l : List String) (i : Nat) (c : List Bool),
      l.length ≤ n → argsLen = i + l.length →
      exceptOk (consumeMultiLoop names argsLen l i c) = true := by
  intro n
  induction n with
  | zero =>
    intro l i c hlen hinv
    cases l with
    | nil => rfl
    | cons a rest => simp at hlen
  | succ n ih =>
    intro l i c hlen hinv
    cases l with
    | nil => rfl
    | cons a rest =>
      simp only [consumeMultiLoop]
      by_cases h1 : a = "--"
      · simp [if_pos h1, exceptOk]
      · by_cases h2 : a.take 2 = "--"
        · by_cases h3 : names.contains (a.drop 2) = true
          · have hne : ¬ argsLen = i := by
              simp [List.length_cons] at hinv
              omega
            simp only [if_neg h1, if_pos h2, if_pos h3, if_neg hne]
            cases rest with
            | nil => rfl
            | cons v rest2 =>
              have hr := ih rest2 (i + 2) ((c.set i true).set (i + 1) true)
                (by simp [List.length_cons] at hlen; omega)
                (by simp [List.length_cons] at hinv ⊢; omega)
              cases hm : consumeMultiLoop names argsLen rest2 (i + 2)
                  ((c.set i true).set (i + 1) true) with
              | ok r =>
                cases r with
                | mk out c2 => simp [hm, exceptOk]
              | error e => rw [hm] at hr; simp [exceptOk] at hr
          · simp only [if_neg h1, if_pos h2, if_neg h3]
            exact ih rest (i + 1) c (by simp at hlen; omega)
              (by simp [List.length_cons] at hinv ⊢; omega)
        · simp only [if_neg h1, if_neg h2]
          exact ih rest (i + 1) c (by simp at hlen; omega)
            (by simp [List.length_cons] at hinv ⊢; omega)

/-- consumeMultiOptions always succeeds, whatever the tokens. -/
theorem consumeMultiOptions_ok (p : ArgParser) (names : List String) :
    exceptOk (p.consumeMultiOptions names) = true := by
  unfold ArgParser.consumeMultiOptions
  have h := consumeMultiLoop_never_errs names p.args.length p.args.length p.args 0 p.consumed
    (Nat.le_refl _) (by omega)
  cases hm : consumeMultiLoop names p.args.length p.args 0 p.consumed with
  | ok r => cases r with | mk out c => rfl
  | error e => rw [hm] at h; simp [exceptOk] at h

/-- Reduction of the Except monad bind on a success. -/
theorem except_bind_ok {ε α β : Type} (a : α) (f : α → Except ε β) :
    (Except.ok a >>= f) = f a := rfl

/-- Reduction of the Except monad bind on an error. -/
theorem except_bind_error {ε α β : Type} (e : ε) (f : α → Except ε β) :
    ((Except.error e : Except ε α) >>= f) = Except.error e := rfl

/-- Reduction of pure in the Except monad. -/
theorem except_pure_eq {ε α : Type} (a : α) : (pure a : Except ε α) = Except.ok a := rfl

/-- isAllowed only ever touches the always-allow memory: the memoized signer
and the factory-call counter pass through every branch unchanged. -/
theorem isAllowed_preserves (env : OpEnv) (msg : String) (st : WrapperState) :
    (isAllowed env msg st).st.memo = st.memo
  ∧ (isAllowed env msg st).st.factoryCalls = st.factoryCalls := by
  unfold isAllowed
  split
  · exact ⟨rfl, rfl⟩
  · split
    · exact ⟨rfl, rfl⟩
    · cases env.choice <;> exact ⟨rfl, rfl⟩

/-- A completed operation on a wrapper that has already materialized its
signer leaves the memo and the factory-call count unchanged: getSigner finds
the memoized signer and never reaches the factory. -/
theorem runIdentityOp_memo_some (env : OpEnv) (op : IdentityOp) (st : WrapperState)
    (t : Signer) (hMemo : st.memo = some t) :
    (runIdentityOp env st op).memo = some t
  ∧ (runIdentityOp env st op).factoryCalls = st.factoryCalls := by
  have hp := isAllowed_preserves env (consentMessage (match op with | .gated g => g | .unlockOp => .signMessage)) st
  cases op with
  | gated g =>
    have hpg := isAllowed_preserves env (consentMessage g) st
    show (runGatedOp env g st).st.memo = some t ∧ (runGatedOp env g st).st.factoryCalls = st.factoryCalls
    unfold runGatedOp getSigner
    rw [hMemo]
    cases hv : (isAllowed env (consentMessage g) st).verdict with
    | error e => simpa [hv, hpg.1] using ⟨hMemo, hpg.2⟩
    | ok u => simpa [hv, hpg.1] using ⟨hMemo, hpg.2⟩
  | unlockOp =>
    show (unlock env st).2.memo = some t ∧ (unlock env st).2.factoryCalls = st.factoryCalls
    unfold unlock getSigner
    rw [hMemo]
    exact ⟨hMemo, rfl⟩

/-- The first completed operation on a fresh wrapper with a succeeding
factory invokes the factory exactly once and memoizes its result. -/
theorem runIdentityOp_memo_none (env : OpEnv) (s : Signer) (op : IdentityOp)
    (st : WrapperState) (hFac : env.factory = .ok s) (hMemo : st.memo = none) :
    (runIdentityOp env st op).memo = some s
  ∧ (runIdentityOp env st op).factoryCalls = st.factoryCalls + 1 := by
  cases op with
  | gated g =>
    have hpg := isAllowed_preserves env (consentMessage g)
      { st with factoryCalls := st.factoryCalls + 1, memo := some s }
    show (runGatedOp env g st).st.memo = some s ∧ (runGatedOp env g st).st.factoryCalls = st.factoryCalls + 1
    unfold runGatedOp getSigner
    rw [hMemo, hFac]
    cases hv : (isAllowed env (consentMessage g)
        { st with factoryCalls := st.factoryCalls + 1, memo := some s }).verdict with
    | error e => simpa [hv] using ⟨hpg.1, hpg.2⟩
    | ok u => simpa [hv] using ⟨hpg.1, hpg.2⟩
  | unlockOp =>
    show (unlock env st).2.memo = some s ∧ (unlock env st).2.factoryCalls = st.factoryCalls + 1
    unfold unlock getSigner
    rw [hMemo, hFac]
    exact ⟨rfl, rfl⟩

/-- Once the signer is memoized, no sequence of further operations changes
the memo or the factory-call count. -/
theorem runOps_memoized (env : OpEnv) :
    ∀ (ops : List IdentityOp) (st : WrapperState) (t : Signer), st.memo = some t →
      (runOps env ops st).memo = some t
    ∧ (runOps env ops st).factoryCalls = st.factoryCalls := by
  intro ops
  induction ops with
  | nil => intro st t h; exact ⟨h, rfl⟩
  | cons op rest ih =>
    intro st t h
    have hstep := runIdentityOp_memo_some env op st t h
    have hrec := ih (runIdentityOp env st op) t hstep.1
    exact ⟨hrec.1, by rw [show runOps env (op :: rest) st = runOps env rest (runIdentityOp env st op) from rfl, hrec.2, hstep.2]⟩

/-! ## Claim theorems -/

/-- C1, counterexample: the claim states that declining consent aborts before
the deferred factory is ever invoked, with the materialization count staying
zero.  On the code, signMessage awaits getSigner before the consent check, so
after a declined sign-message on a fresh wrapper the factory has been invoked
once even though the operation aborted with Cancelled and the underlying
signing capability was never called. -/
theorem c1_counterexample :
    (runGatedOp c1DemoEnv .signMessage initialWrapperState).outcome = .error "Cancelled."
  ∧ (runGatedOp c1DemoEnv .signMessage initialWrapperState).st.factoryCalls = 1
  ∧ (runGatedOp c1DemoEnv .signMessage initialWrapperState).signerOpCalls = 0 := by
  decide

/-- C1, amended: for every gated operation, declining consent aborts the
operation with the error Cancelled before the underlying signing capability
is called; however, the real signer is materialized before the consent check,
so the deferred factory has already been invoked (its count increments) even
when the user says no. -/
theorem c1_amended_consent_after_materialization (env : OpEnv) (op : GatedOp)
    (st : WrapperState) (s : Signer)
    (hYes : env.autoYes = false) (hChoice : env.choice = .no)
    (hMem : st.alwaysAllow.contains (consentMessage op) = false)
    (hMemo : st.memo = none) (hFac : env.factory = .ok s) :
    (runGatedOp env op st).outcome = .error "Cancelled."
  ∧ (runGatedOp env op st).signerOpCalls = 0
  ∧ (runGatedOp env op st).st.factoryCalls = st.factoryCalls + 1 := by
  have hMem2 : ¬ (consentMessage op ∈ st.alwaysAllow) := by
    simpa using hMem
  unfold runGatedOp getSigner
  rw [hMemo, hFac]
  simp [isAllowed, hYes, hMem2, hChoice]

/-- C1, witness: the amended theorem applied to a declining user, a fresh
wrapper and a succeeding factory. -/
theorem c1_witness :
    (runGatedOp c1DemoEnv .signMessage initialWrapperState).outcome = .error "Cancelled."
  ∧ (runGatedOp c1DemoEnv .signMessage initialWrapperState).signerOpCalls = 0
  ∧ (runGatedOp c1DemoEnv .signMessage initialWrapperState).st.factoryCalls
      = initialWrapperState.factoryCalls + 1 :=
  c1_amended_consent_after_materialization c1DemoEnv .signMessage initialWrapperState ⟨7⟩
    rfl rfl rfl rfl rfl

/-- C2, counterexample: the claim states that the factory is invoked at most
once even when the identity is queried again before the first in-flight
materialization completes.  On the code, getSigner memoizes the resolved
signer, not the in-flight promise: under the interleaved schedule A B A B the
second caller runs the memoization check before the first caller has stored
its result, and the factory is invoked twice.  Under the non-interleaved
schedule A A B B it is invoked once. -/
theorem c2_counterexample :
    (runSchedule (.ok ⟨7⟩) [.A, .B, .A, .B] initialConcurrentState).factoryCalls = 2
  ∧ (runSchedule (.ok ⟨7⟩) [.A, .A, .B, .B] initialConcurrentState).factoryCalls = 1 := by
  decide

/-- C2, amended: across any number of sequentially completed operations
(signMessage, signTransaction, sendTransaction, unlock) on the same wrapped
identity whose factory materializes successfully, the factory is invoked at
most once; the at-most-once guarantee does not extend to a second query that
arrives before the first materialization completes. -/
theorem c2_amended_sequential_memoization (env : OpEnv) (s : Signer)
    (ops : List IdentityOp) (hFac : env.factory = .ok s) :
    (runOps env ops initialWrapperState).factoryCalls ≤ 1 := by
  cases ops with
  | nil => exact Nat.zero_le 1
  | cons op rest =>
    have hstep := runIdentityOp_memo_none env s op initialWrapperState hFac rfl
    have hrec := runOps_memoized env rest (runIdentityOp env initialWrapperState op) s hstep.1
    rw [show runOps env (op :: rest) initialWrapperState
        = runOps env rest (runIdentityOp env initialWrapperState op) from rfl, hrec.2, hstep.2]
    simp [initialWrapperState]

/-- C2, witness: the amended theorem applied to a three-operation sequence
over a succeeding factory. -/
theorem c2_witness :
    (runOps c2DemoEnv [.unlockOp, .gated .signMessage, .gated .sendTransaction]
      initialWrapperState).factoryCalls ≤ 1 :=
  c2_amended_sequential_memoization c2DemoEnv ⟨7⟩
    [.unlockOp, .gated .signMessage, .gated .sendTransaction] rfl

/-- C3: a readable encrypted wallet file classifies as a wallet identity (it
does not fall through to the unknown-credential error), but the Cancelled and
Incorrect-password mappings of the loadAccount catch never apply to the
deferred factory: the factory runs after loadAccount has returned, so a wrong
password surfaces as the raw error "wrong password" and an aborted prompt as
the raw error "cancelled", not as "Incorrect password." and "Cancelled.".
The mapped messages are only produced when the structural read itself throws
those texts, which the file-reading capability never does. -/
theorem c3_deferred_decryption_errors_unmapped :
    classifyAccount demoResolverEnv "wallet.json" = .jsonWallet "0xAbc" "ENC" "wallet.json"
  ∧ walletFactory ⟨.entered "guess", "secret"⟩ ⟨5⟩ = .error "wrong password"
  ∧ walletFactory ⟨.cancelled, "secret"⟩ ⟨5⟩ = .error "cancelled"
  ∧ (unlock ⟨false, .yesOnce, walletFactory ⟨.entered "guess", "secret"⟩ ⟨5⟩⟩
      initialWrapperState).1 = .error "wrong password"
  ∧ (unlock ⟨false, .yesOnce, walletFactory ⟨.cancelled, "secret"⟩ ⟨5⟩⟩
      initialWrapperState).1 = .error "cancelled"
  ∧ ("wrong password" == "Incorrect password.") = false
  ∧ ("cancelled" == "Cancelled.") = false
  ∧ classifyAccount ⟨fun _ => false, fun _ => .failure "wrong password", fun _ => none⟩ "f"
      = .failed "Incorrect password." false
  ∧ classifyAccount ⟨fun _ => false, fun _ => .failure "cancelled", fun _ => none⟩ "f"
      = .failed "Cancelled." false := by
  decide

/-- C4: the claim states that an option token that is the last token of the
list fails with a usage error.  On the code, the guard compares the total
token count with the current index inside a loop that only runs while the
index is strictly below that count, so it can never fire: consuming the
token list consisting only of the option token yields a match whose value is
the undefined read past the end of the list, and consumeMultiOptions never
returns an error at all. -/
theorem c4_missing_value_guard_unreachable :
    ArgParser.consumeMultiOptions ⟨["--a"], [false]⟩ ["a"] = .ok ([("a", none)], ⟨["--a"], [true]⟩)
  ∧ (∀ (p : ArgParser) (names : List String), exceptOk (p.consumeMultiOptions names) = true) := by
  constructor
  · decide
  · exact consumeMultiOptions_ok

/-- C5, counterexample: the claim states that consumeFlag scans only
unconsumed tokens, so that a second run on the same name returns false.  On
the code, consumeFlag never reads the consumption marks: a second run on the
same single-occurrence name returns true again, re-marking the same token. -/
theorem c5_counterexample :
    ArgParser.consumeFlag ⟨["--x"], [false]⟩ "x" = .ok (true, ⟨["--x"], [true]⟩)
  ∧ ArgParser.consumeFlag ⟨["--x"], [true]⟩ "x" = .ok (true, ⟨["--x"], [true]⟩) := by
  decide

/-- C5, amended: consumeFlag ignores the consumption state entirely — its
observable result (hit or usage error) depends only on the token list.
Consequently disjoint flag names never interfere with one another, and a
repeated run on the same name returns the same answer as the first run (true
again, not false). -/
theorem c5_amended_consumption_state_ignored :
    (∀ (args : List String) (c1 c2 : List Bool) (name : String),
        Except.map Prod.fst (ArgParser.consumeFlag ⟨args, c1⟩ name)
          = Except.map Prod.fst (ArgParser.consumeFlag ⟨args, c2⟩ name))
  ∧ (∀ (p : ArgParser) (name : String) (b : Bool) (p1 : ArgParser),
        p.consumeFlag name = .ok (b, p1) →
        Except.map Prod.fst (p1.consumeFlag name) = .ok b) := by
  constructor
  · exact consumeFlag_fst_const
  · intro p name b p1 h
    have hargs : p1.args = p.args := by
      unfold ArgParser.consumeFlag at h
      by_cases hc : 1 < (consumeFlagLoop name p.args 0 p.consumed).1
      · simp [hc] at h
      · simp [hc] at h
        rw [← h.2]
    have hconst := consumeFlag_fst_const p.args p1.consumed p.consumed name
    rw [show p1 = ⟨p.args, p1.consumed⟩ from by rw [← hargs]] at h ⊢
    rw [hconst, show (⟨p.args, p.consumed⟩ : ArgParser) = p from rfl, h]
    rfl

/-- C5, witness: the amended theorem applied to the single-occurrence token
list after its first consumption. -/
theorem c5_witness :
    Except.map Prod.fst (ArgParser.consumeFlag ⟨["--x"], [true]⟩ "x") = .ok true :=
  c5_amended_consumption_state_ignored.2 ⟨["--x"], [false]⟩ "x" true ⟨["--x"], [true]⟩ (by decide)

/-- C6: loadAccount classifies a credential in the fixed precedence order
sentinel, hex secret, mnemonic phrase, wallet file, fallback error, and the
first structurally valid match wins; in particular a string that is both a
valid 32-byte hex string and a valid mnemonic resolves through the hex
branch for every mnemonic validator. -/
theorem c6_classification_precedence (env : ResolverEnv) (arg : String) :
    (arg = "-" → classifyAccount env arg = .secureEntry)
  ∧ (arg ≠ "-" → isHexString32 arg = true → classifyAccount env arg = .rawKey)
  ∧ (arg ≠ "-" → isHexString32 arg = false → env.isValidMnemonic arg = true →
        classifyAccount env arg = .mnemonicKey)
  ∧ (arg ≠ "-" → isHexString32 arg = false → env.isValidMnemonic arg = false →
        ∀ (text address : String), env.readFile arg = .contents text →
          env.jsonWalletAddress text = some address →
          classifyAccount env arg = .jsonWallet address text arg)
  ∧ (arg ≠ "-" → isHexString32 arg = false → env.isValidMnemonic arg = false →
        ∀ (text : String), env.readFile arg = .contents text →
          env.jsonWalletAddress text = none →
          classifyAccount env arg = .failed unknownAccountMessage true) := by
  refine ⟨?_, ?_, ?_, ?_, ?_⟩
  · intro h; simp [classifyAccount, h]
  · intro h1 h2; simp [classifyAccount, h1, h2]
  · intro h1 h2 h3; simp [classifyAccount, h1, h2, h3]
  · intro h1 h2 h3 text address h4 h5; simp [classifyAccount, h1, h2, h3, h4, h5]
  · intro h1 h2 h3 text h4 h5; simp [classifyAccount, h1, h2, h3, h4, h5]

/-- C6, witness: a 32-byte hex credential resolves through the hex branch
even under a mnemonic validator that accepts every string. -/
theorem c6_witness :
    classifyAccount mnemonicAlwaysEnv demoHexKey = .rawKey :=
  (c6_classification_precedence mnemonicAlwaysEnv demoHexKey).2.1 (by decide) (by decide)

/-- C7: consent protocol of isAllowed.  With auto-confirm set, consent is
granted immediately with the auto-confirm note and no prompt; otherwise a
message previously answered always on this wrapper is granted immediately
with the prior-always note and no prompt; otherwise the user is prompted,
and answering always records the message so that the identical action skips
the prompt on the second call. -/
theorem c7_consent_protocol (env : OpEnv) (msg : String) (st : WrapperState) :
    (env.autoYes = true →
        isAllowed env msg st = ⟨.ok (), st, false, some (autoYesNote msg)⟩)
  ∧ (env.autoYes = false → st.alwaysAllow.contains msg = true →
        isAllowed env msg st = ⟨.ok (), st, false, some (priorAlwaysNote msg)⟩)
  ∧ (env.autoYes = false → st.alwaysAllow.contains msg = false →
        (isAllowed env msg st).prompted = true)
  ∧ (env.autoYes = false → st.alwaysAllow.contains msg = false → env.choice = .always →
        (isAllowed env msg st).verdict = .ok ()
      ∧ (isAllowed env msg ((isAllowed env msg st).st)).prompted = false
      ∧ (isAllowed env msg ((isAllowed env msg st).st)).verdict = .ok ()
      ∧ (isAllowed env msg ((isAllowed env msg st).st)).note = some (priorAlwaysNote msg)) := by
  refine ⟨?_, ?_, ?_, ?_⟩
  · intro h; simp [isAllowed, h]
  · intro h1 h2
    have h2m : msg ∈ st.alwaysAllow := by simpa using h2
    simp [isAllowed, h1, h2m]
  · intro h1 h2
    simp only [isAllowed, h1, h2, Bool.false_eq_true, if_false]
    cases env.choice <;> rfl
  · intro h1 h2 h3
    have h2m : ¬ msg ∈ st.alwaysAllow := by simpa using h2
    simp [isAllowed, h1, h2m, h3]

/-- C7, witness: the protocol applied to an auto-confirming context and to a
fresh wrapper whose user answers always. -/
theorem c7_witness :
    isAllowed ⟨true, .yesOnce, .ok ⟨1⟩⟩ "Sign Message?" initialWrapperState
      = ⟨.ok (), initialWrapperState, false, some (autoYesNote "Sign Message?")⟩
  ∧ (isAllowed ⟨false, .always, .ok ⟨1⟩⟩ "Sign Message?"
       ((isAllowed ⟨false, .always, .ok ⟨1⟩⟩ "Sign Message?" initialWrapperState).st)).prompted
      = false := by
  constructor
  · exact (c7_consent_protocol ⟨true, .yesOnce, .ok ⟨1⟩⟩ "Sign Message?" initialWrapperState).1 rfl
  · exact ((c7_consent_protocol ⟨false, .always, .ok ⟨1⟩⟩ "Sign Message?"
      initialWrapperState).2.2.2 rfl (by decide) rfl).2.1

/-- C8: the network runner maps a failed lookup to the sentinel identity with
chain id 0 named no-network; the pipeline carries the sentinel while
everything else completes; the success of the pipeline never depends on the
network lookup; and other failures do propagate: an account-resolution error
fails the account loop, and concretely a pipeline whose network lookup and
account resolver both fail reports the account error, not a network error. -/
theorem c8_network_lookup_best_effort :
    (∀ (e : String), resolveNetworkIdentity (.error e) = noNetwork)
  ∧ noNetwork = { chainId := 0, name := "no-network" }
  ∧ (∀ (env : PipelineEnv) (p : ArgParser) (e : String), env.networkResult = .error e →
        Plugin.prepareOptions env p
          = (prepareCore env p).map (fun c => { toCoreOptions := c, network := noNetwork }))
  ∧ (∀ (env : PipelineEnv) (p : ArgParser),
        exceptOk (Plugin.prepareOptions env p) = exceptOk (prepareCore env p))
  ∧ (∀ (f : Option String → Except String Unit) (g : Option String → Bool)
        (rpcCount : Nat) (v : Option String) (rest : List (String × Option String)) (e : String),
        f v = .error e → accountLoop f g rpcCount (("account", v) :: rest) = .error e)
  ∧ Plugin.prepareOptions c8DemoEnv (ArgParser.mk ["--account", "k"] [false, false])
      = .error "boom" := by
  refine ⟨fun e => rfl, rfl, ?_, ?_, ?_, by decide⟩
  · intro env p e h
    unfold Plugin.prepareOptions
    rw [h]
    rfl
  · intro env p
    unfold Plugin.prepareOptions
    cases prepareCore env p <;> rfl
  · intro f g rpcCount v rest e h
    simp [accountLoop, h]

/-- C8, witness: the sentinel substitution applied to the concrete pipeline
whose network lookup fails, and the account-error propagation applied to a
concrete failing resolver. -/
theorem c8_witness :
    Plugin.prepareOptions c8DemoEnv (ArgParser.mk [] [])
      = (prepareCore c8DemoEnv (ArgParser.mk [] [])).map
          (fun c => { toCoreOptions := c, network := noNetwork })
  ∧ accountLoop (fun _ => .error "boom") (fun _ => true) 0 [("account", some "k")]
      = .error "boom" := by
  constructor
  · exact c8_network_lookup_best_effort.2.2.1 c8DemoEnv (ArgParser.mk [] [])
      "getaddrinfo ENOTFOUND" rfl
  · exact c8_network_lookup_best_effort.2.2.2.2.1 (fun _ => .error "boom") (fun _ => true)
      0 (some "k") [] "boom" rfl

/-- C9: the gas-price option is converted from gwei to base units (times ten
to the ninth) and the value option from ether to base units (times ten to the
eighteenth): on the tokens gas-price 5 and value 1.5 the assembled context
holds gasPrice 5000000000 and value 1500000000000000000 exactly. -/
theorem c9_unit_conversion :
    parseUnits "5" 9 = some 5000000000
  ∧ parseEther "1.5" = some 1500000000000000000
  ∧ Plugin.prepareOptions c9Env (ArgParser.ofArgs ["--gas-price", "5", "--value", "1.5"])
    = .ok { yes := false, networkName := "homestead", rpcCount := 0, providerCount := 0,
            accountCount := 0, gasPrice := some 5000000000, gasLimit := none, nonce := none,
            value := some 1500000000000000000, data := none, network := ⟨1, "homestead"⟩ } := by
  refine ⟨by decide, by decide, by decide⟩

/-- C10: the duplicate-flag error of consumeFlag and the missing-argument
error of consumeMultiOptions are fixed literal strings containing the
uninterpolated text dollar-brace name close-brace; the consumeFlag error is
the same constant for every flag name, and consumeMultiOptions never raises
its message at all (the guard is unreachable), so neither message ever
reflects the actual name. -/
theorem c10_error_messages_literal :
    consumeFlagDupMessage = "expected at most one --$\x7bname\x7d"
  ∧ missingArgumentMessage = "missing argument for --$\x7bname\x7d"
  ∧ (∀ (p : ArgParser) (name : String),
        p.consumeFlag name = .error consumeFlagDupMessage
      ∨ exceptOk (p.consumeFlag name) = true)
  ∧ (∀ (p : ArgParser) (names : List String), exceptOk (p.consumeMultiOptions names) = true) := by
  refine ⟨rfl, rfl, ?_, consumeMultiOptions_ok⟩
  intro p name
  unfold ArgParser.consumeFlag
  by_cases hc : 1 < (consumeFlagLoop name p.args 0 p.consumed).1
  · left; simp [hc]
  · right; simp [hc, exceptOk]

end EthersCli
